import Mathlib

/-!
Shallow embedding of the EcoDuino backend (src/server.js), an Express/MySQL
server for greenhouse devices.  Durable state is the four MySQL tables
(invernadero, estado_control, usuario_invernadero, registro_sensores),
modelled as lists of rows plus the AUTO_INCREMENT counter of the
invernadero table.  Each HTTP handler becomes a pure function from a
database state (and the server clock value that MySQL's NOW() would
return during the request) to an HTTP-result value and the database state
left behind.  A handler that issues several SQL statements may fail at any
of them (a constraint violation, a lost connection, a timeout); such
storage-layer failures are modelled by boolean failure flags passed to the
handler: a flag set to true means the corresponding statement raises, which
the JavaScript code observes as a thrown error landing in its catch block.
JavaScript truthiness checks on request fields are translated explicitly
(a number is falsy exactly when it is 0, a string exactly when it is empty,
and a missing field is modelled by an Option being none).
-/

namespace EcoDuino

/-- Row of the invernadero table: internal id (AUTO_INCREMENT), a location
label, the opaque device token, and the last-contact timestamp
(ultima_conexion), with timestamps modelled as natural numbers. -/
structure Invernadero where
  id_invernadero : Nat
  nombre_ubicacion : String
  token_dispositivo : String
  ultima_conexion : Nat
  deriving Repr, DecidableEq

/-- Row of the estado_control table: one per device, three actuator flags
stored as tinyints (JavaScript reads them back through a double negation,
so any nonzero value is true), and a last-update timestamp.  The
provisioning INSERT names only the id and the three flag columns, so
ultima_actualizacion starts at its column default, modelled as none. -/
structure EstadoControl where
  id_invernadero : Nat
  luces_estado : Int
  riego_estado : Int
  ventilacion_estado : Int
  ultima_actualizacion : Option Nat
  deriving Repr, DecidableEq

/-- Row of the usuario_invernadero table: the ownership relation between a
user, a device and a role string. -/
structure UsuarioInvernadero where
  id_usuario : Nat
  id_invernadero : Nat
  rol : String
  deriving Repr, DecidableEq

/-- Row of the registro_sensores table: one immutable sensor reading.
fecha_hora is assigned from NOW() at ingestion, never client-supplied. -/
structure RegistroSensor where
  id_invernadero : Nat
  fecha_hora : Nat
  temp_ambiente : Int
  humedad_ambiente : Int
  humedad_suelo : Int
  deriving Repr, DecidableEq

/-- The durable state: the four tables plus the AUTO_INCREMENT counter that
MySQL uses to assign insertId for the invernadero table. -/
structure DB where
  invernadero : List Invernadero
  estado_control : List EstadoControl
  usuario_invernadero : List UsuarioInvernadero
  registro_sensores : List RegistroSensor
  nextInvId : Nat
  deriving Repr, DecidableEq

/-- Outcome of POST /api/invernaderos/crear, one constructor per distinct
HTTP response the handler can send. -/
inductive CrearResult where
  | badRequest
  | conflict
  | created (invernaderoId : Nat)
  | internalError
  deriving Repr, DecidableEq

/-- HTTP status code sent for each provisioning outcome. -/
def CrearResult.status : CrearResult → Nat
  | .badRequest => 400
  | .conflict => 409
  | .created _ => 201
  | .internalError => 500

/-- Storage-failure schedule for the four SQL statements the provisioning
transaction runs: the duplicate-token SELECT and the three INSERTs.  A true
flag means that statement raises; in particular falloInsertInvernadero set
models the storage layer itself rejecting the device INSERT, e.g. a unique
constraint fired by a concurrent duplicate token. -/
structure CrearFallo where
  falloSelect : Bool
  falloInsertInvernadero : Bool
  falloInsertEstado : Bool
  falloInsertUsuario : Bool
  deriving Repr, DecidableEq

/-- Failure schedule on which every SQL statement succeeds. -/
def sinFallo : CrearFallo := ⟨false, false, false, false⟩

/-- POST /api/invernaderos/crear (server.js lines 111-164).  Validates the
three fields by JavaScript truthiness, then inside one transaction: SELECT
for the token, INSERT the invernadero row, INSERT the estado_control row
with all flags 0, INSERT the usuario_invernadero row with role admin, then
COMMIT.  The duplicate-token branch and the catch block both ROLLBACK, so
on every non-created outcome the database visible afterwards is the input
state; intermediate states exist only inside the open transaction and are
therefore not materialised here. -/
def crearInvernadero (db : DB) (t : Nat) (userId : Nat)
    (nombreUbicacion tokenDispositivo : String) (f : CrearFallo) :
    CrearResult × DB :=
  if userId = 0 ∨ nombreUbicacion = "" ∨ tokenDispositivo = "" then
    (.badRequest, db)
  else if f.falloSelect then
    (.internalError, db)
  else if db.invernadero.any (fun i => i.token_dispositivo == tokenDispositivo) then
    (.conflict, db)
  else if f.falloInsertInvernadero then
    (.internalError, db)
  else if f.falloInsertEstado then
    (.internalError, db)
  else if f.falloInsertUsuario then
    (.internalError, db)
  else
    let newInvId := db.nextInvId
    (.created newInvId,
      { db with
        invernadero :=
          db.invernadero ++ [⟨newInvId, nombreUbicacion, tokenDispositivo, t⟩],
        estado_control :=
          db.estado_control ++ [⟨newInvId, 0, 0, 0, none⟩],
        usuario_invernadero :=
          db.usuario_invernadero ++ [⟨userId, newInvId, "admin"⟩],
        nextInvId := newInvId + 1 })

/-- An empty database whose AUTO_INCREMENT counter starts at 1. -/
def dbVacia : DB := ⟨[], [], [], [], 1⟩

/-- Claim C1: a provisioning call that does not return created (201) leaves
the database exactly as it found it — the transaction rolls back on the
duplicate-token branch and in the catch block, so no Device, ControlState
or Ownership row from the failed attempt is observable afterwards. -/
theorem crear_atomico (db : DB) (t userId : Nat)
    (nombre token : String) (f : CrearFallo)
    (h : (crearInvernadero db t userId nombre token f).1.status ≠ 201) :
    (crearInvernadero db t userId nombre token f).2 = db := by
  unfold crearInvernadero at h ⊢
  split_ifs at h ⊢
  any_goals rfl
  exact absurd rfl h

/-- Witness for C1 at a concrete input: the estado_control INSERT raises,
the handler answers 500, and the database is unchanged. -/
theorem crear_atomico_testigo :
    (crearInvernadero dbVacia 0 7 "Greenhouse A" "ABC" ⟨false, false, true, false⟩).2 = dbVacia :=
  crear_atomico dbVacia 0 7 "Greenhouse A" "ABC" ⟨false, false, true, false⟩ (by decide)

/-- Claim C10: request fields are judged by JavaScript truthiness, so a
present user id equal to 0, or an empty location label or device token, is
rejected as bad request (400) with the database untouched, and this happens
for every storage-failure schedule — showing the rejection precedes any
transaction or storage access. -/
theorem crear_validacion_truthiness (db : DB) (t userId : Nat)
    (nombre token : String)
    (h : userId = 0 ∨ nombre = "" ∨ token = "") :
    ∀ f : CrearFallo,
      crearInvernadero db t userId nombre token f = (.badRequest, db) := by
  intro f
  unfold crearInvernadero
  simp [h]

/-- Witness for C10 at a concrete input: user id 0 with otherwise complete
fields is rejected as 400 and the database is unchanged, whatever the
storage layer would have done. -/
theorem crear_validacion_truthiness_testigo :
    crearInvernadero dbVacia 3 0 "Greenhouse A" "ABC" sinFallo = (.badRequest, dbVacia) ∧
    crearInvernadero dbVacia 3 0 "Greenhouse A" "ABC" ⟨true, true, true, true⟩ =
      (.badRequest, dbVacia) :=
  ⟨crear_validacion_truthiness dbVacia 3 0 "Greenhouse A" "ABC" (Or.inl rfl) sinFallo,
   crear_validacion_truthiness dbVacia 3 0 "Greenhouse A" "ABC" (Or.inl rfl)
     ⟨true, true, true, true⟩⟩

/-- Failure schedule in which the storage layer rejects the device INSERT
itself — the situation of a concurrent duplicate token slipping past the
application-level SELECT and being caught by the database's uniqueness
constraint.  The thrown error lands in the catch block of server.js. -/
def falloDuplicadoAlmacen : CrearFallo := ⟨false, true, false, false⟩

/-- Counterexample to claim C2 as stated: at a concrete input whose
application-level SELECT sees no duplicate but whose device INSERT is
rejected by the storage layer, the handler answers 500 (the catch block at
server.js lines 157-160 maps every raised error to internal failure), not
the 409 conflict the claim promises for token-duplicate failures. -/
theorem crear_duplicado_almacen_500 :
    (crearInvernadero dbVacia 0 7 "Greenhouse A" "ABC" falloDuplicadoAlmacen).1.status = 500 ∧
    (crearInvernadero dbVacia 0 7 "Greenhouse A" "ABC" falloDuplicadoAlmacen).1.status ≠ 409 := by
  decide

/-- Claim C2 as amended: only the application-level SELECT finding the
token yields the 409 conflict outcome; a storage-layer rejection of the
device INSERT (like any other error raised after the transaction begins)
surfaces as the 500 internal-failure outcome, in both cases with the
transaction rolled back and the database unchanged. -/
theorem crear_duplicado_resultado (db : DB) (t userId : Nat)
    (nombre token : String) (f : CrearFallo)
    (hu : userId ≠ 0) (hn : nombre ≠ "") (ht : token ≠ "")
    (hsel : f.falloSelect = false) :
    ((db.invernadero.any (fun i => i.token_dispositivo == token)) = true →
      crearInvernadero db t userId nombre token f = (.conflict, db)) ∧
    ((db.invernadero.any (fun i => i.token_dispositivo == token)) = false →
      f.falloInsertInvernadero = true →
      crearInvernadero db t userId nombre token f = (.internalError, db)) := by
  constructor
  · intro hdup
    unfold crearInvernadero
    simp [hu, hn, ht, hsel, hdup]
  · intro hdup hins
    unfold crearInvernadero
    simp [hu, hn, ht, hsel, hdup, hins]

/-- A database holding one provisioned device with token ABC, its all-off
control state, and its admin ownership by user 7. -/
def dbUno : DB :=
  ⟨[⟨1, "Greenhouse A", "ABC", 0⟩], [⟨1, 0, 0, 0, none⟩], [⟨7, 1, "admin"⟩], [], 2⟩

/-- Witness for the amended C2 at concrete inputs: on dbUno, reusing token
ABC is answered 409 with the database unchanged, and on dbVacia a fresh
token whose INSERT the storage layer rejects is answered 500 with the
database unchanged. -/
theorem crear_duplicado_resultado_testigo :
    crearInvernadero dbUno 5 9 "Greenhouse B" "ABC" sinFallo = (.conflict, dbUno) ∧
    crearInvernadero dbVacia 5 9 "Greenhouse B" "XYZ" falloDuplicadoAlmacen =
      (.internalError, dbVacia) := by
  constructor
  · exact (crear_duplicado_resultado dbUno 5 9 "Greenhouse B" "ABC" sinFallo
      (by decide) (by decide) (by decide) rfl).1 (by decide)
  · exact (crear_duplicado_resultado dbVacia 5 9 "Greenhouse B" "XYZ" falloDuplicadoAlmacen
      (by decide) (by decide) (by decide) rfl).2 (by decide) rfl

/-- Claim C3: whenever provisioning returns created, the resulting database
holds an estado_control row for the new device with all three actuator
flags 0 (read back as false through the double negation in the state
endpoint) and a usuario_invernadero row linking the requesting user to the
new device with role admin. -/
theorem crear_cocreacion (db : DB) (t userId : Nat)
    (nombre token : String) (f : CrearFallo) (newId : Nat) (db' : DB)
    (h : crearInvernadero db t userId nombre token f = (.created newId, db')) :
    (∃ e ∈ db'.estado_control,
      e.id_invernadero = newId ∧ e.luces_estado = 0 ∧
      e.riego_estado = 0 ∧ e.ventilacion_estado = 0) ∧
    (∃ u ∈ db'.usuario_invernadero,
      u.id_usuario = userId ∧ u.id_invernadero = newId ∧ u.rol = "admin") := by
  unfold crearInvernadero at h
  split_ifs at h <;> simp at h
  obtain ⟨hid, hdb⟩ := h
  subst hdb
  constructor
  · exact ⟨⟨db.nextInvId, 0, 0, 0, none⟩, by simp, by simp [hid]⟩
  · exact ⟨⟨userId, db.nextInvId, "admin"⟩, by simp, by simp [hid]⟩

/-- Witness for C3 at a concrete input: provisioning token ABC for user 7
on the empty database yields device 1 whose control-state and ownership
rows are present as claimed. -/
theorem crear_cocreacion_testigo :
    (∃ e ∈ (crearInvernadero dbVacia 0 7 "Greenhouse A" "ABC" sinFallo).2.estado_control,
      e.id_invernadero = 1 ∧ e.luces_estado = 0 ∧
      e.riego_estado = 0 ∧ e.ventilacion_estado = 0) ∧
    (∃ u ∈ (crearInvernadero dbVacia 0 7 "Greenhouse A" "ABC" sinFallo).2.usuario_invernadero,
      u.id_usuario = 7 ∧ u.id_invernadero = 1 ∧ u.rol = "admin") :=
  crear_cocreacion dbVacia 0 7 "Greenhouse A" "ABC" sinFallo 1
    (crearInvernadero dbVacia 0 7 "Greenhouse A" "ABC" sinFallo).2 (by decide)

/-- Row order produced by the device-listing query, ORDER BY
I.id_invernadero ASC. -/
def ordenIdAsc (a b : Invernadero) : Prop :=
  a.id_invernadero ≤ b.id_invernadero

instance : DecidableRel ordenIdAsc :=
  fun a b => Nat.decLe a.id_invernadero b.id_invernadero

instance : IsTotal Invernadero ordenIdAsc :=
  ⟨fun a b => Nat.le_total a.id_invernadero b.id_invernadero⟩

instance : IsTrans Invernadero ordenIdAsc :=
  ⟨fun _ _ _ h1 h2 => Nat.le_trans h1 h2⟩

/-- GET /api/invernaderos/user/:userId (server.js lines 169-199).  Joins
invernadero with usuario_invernadero on the device id, keeps the rows of
the requested user, and sorts by device id ascending; the response is
always status 200 with the (possibly empty) row list.  The userId path
parameter is a nonempty string whenever the route matches, so the
truthiness guard in the handler cannot fire and the parameter is modelled
directly as the numeric user id the query compares against. -/
def listarInvernaderosUsuario (db : DB) (userId : Nat) :
    Nat × List Invernadero :=
  (200,
    List.insertionSort ordenIdAsc
      ((db.usuario_invernadero.filter (fun u => u.id_usuario == userId)).flatMap
        (fun u => db.invernadero.filter
          (fun i => i.id_invernadero == u.id_invernadero))))

/-- Outcome of POST /api/data/ingresar, one constructor per distinct HTTP
response the handler can send. -/
inductive IngresarResult where
  | badRequest
  | unauthorized
  | created
  | internalError
  deriving Repr, DecidableEq

/-- HTTP status code sent for each telemetry-ingest outcome. -/
def IngresarResult.status : IngresarResult → Nat
  | .badRequest => 400
  | .unauthorized => 401
  | .created => 201
  | .internalError => 500

/-- Storage-failure schedule for the three SQL statements of telemetry
ingest: the token SELECT, the reading INSERT, and the last-contact UPDATE.
The handler runs them as three separate auto-committed pool queries with no
transaction around them. -/
structure IngresarFallo where
  falloSelect : Bool
  falloInsert : Bool
  falloUpdate : Bool
  deriving Repr, DecidableEq

/-- Failure schedule on which every ingest SQL statement succeeds. -/
def ingresarSinFallo : IngresarFallo := ⟨false, false, false⟩

/-- POST /api/data/ingresar (server.js lines 205-246).  Validates the token
by truthiness and the three measurements against undefined, resolves the
token to a device, INSERTs a reading whose fecha_hora is NOW() (the
parameter t), then UPDATEs the device's ultima_conexion in a second,
separate statement.  Because the INSERT is auto-committed before the UPDATE
runs, a failure of the UPDATE leaves the freshly inserted reading behind
while answering 500. -/
def ingresarDatos (db : DB) (t : Nat) (token : String)
    (tempAmbiente humAmbiente humedadSuelo : Option Int) (f : IngresarFallo) :
    IngresarResult × DB :=
  match tempAmbiente, humAmbiente, humedadSuelo with
  | some temp, some hum, some suelo =>
    if token = "" then (.badRequest, db)
    else if f.falloSelect then (.internalError, db)
    else
      match db.invernadero.find? (fun i => i.token_dispositivo == token) with
      | none => (.unauthorized, db)
      | some inv =>
        if f.falloInsert then (.internalError, db)
        else
          let db1 : DB :=
            { db with registro_sensores := db.registro_sensores ++
                [⟨inv.id_invernadero, t, temp, hum, suelo⟩] }
          if f.falloUpdate then (.internalError, db1)
          else
            (.created,
              { db1 with invernadero := db1.invernadero.map (fun i =>
                  if i.id_invernadero == inv.id_invernadero then
                    { i with ultima_conexion := t }
                  else i) })
  | _, _, _ => (.badRequest, db)

/-- Row order produced by the history query, ORDER BY fecha_hora DESC:
a reading may precede another exactly when its capture time is at least as
recent. -/
def recienteDesc (a b : RegistroSensor) : Prop :=
  b.fecha_hora ≤ a.fecha_hora

instance : DecidableRel recienteDesc :=
  fun a b => Nat.decLe b.fecha_hora a.fecha_hora

instance : IsTotal RegistroSensor recienteDesc :=
  ⟨fun a b => Nat.le_total b.fecha_hora a.fecha_hora⟩

instance : IsTrans RegistroSensor recienteDesc :=
  ⟨fun _ _ _ h1 h2 => Nat.le_trans h2 h1⟩

/-- The full history of one device, most recent first: the registro_sensores
rows of that device ordered by fecha_hora descending, before LIMIT is
applied. -/
def historicoCompleto (db : DB) (id_inv : Nat) : List RegistroSensor :=
  List.insertionSort recienteDesc
    (db.registro_sensores.filter (fun r => r.id_invernadero == id_inv))

/-- Outcome of GET /api/data/historico/:id_inv: 404 when the limited query
returns no rows, otherwise 200 with the rows. -/
inductive HistoricoResult where
  | notFound
  | ok (registros : List RegistroSensor)
  deriving Repr, DecidableEq

/-- GET /api/data/historico/:id_inv (server.js lines 273-294).  The limit
query parameter defaults to 50 when absent; the rows are the device's
readings ordered by fecha_hora descending, truncated by LIMIT. -/
def historico (db : DB) (id_inv : Nat) (limit : Option Nat) : HistoricoResult :=
  let l := limit.getD 50
  let registros := (historicoCompleto db id_inv).take l
  if registros.isEmpty then .notFound else .ok registros

/-- Outcome of GET /api/control/estado/:token: 401 for an unknown token,
404 for a known device with no estado_control row, otherwise 200 with the
three flags read through double negation. -/
inductive EstadoResult where
  | unauthorized
  | notFound
  | ok (luces riego ventilacion : Bool)
  deriving Repr, DecidableEq

/-- GET /api/control/estado/:token (server.js lines 299-332).  Resolves the
token to a device (first matching row), then fetches that device's
estado_control row (first matching row) and reports each tinyint flag as
the boolean it double-negates to. -/
def consultarEstado (db : DB) (token : String) : EstadoResult :=
  match db.invernadero.find? (fun i => i.token_dispositivo == token) with
  | none => .unauthorized
  | some inv =>
    match db.estado_control.find?
        (fun e => e.id_invernadero == inv.id_invernadero) with
    | none => .notFound
    | some e =>
      .ok (e.luces_estado != 0) (e.riego_estado != 0) (e.ventilacion_estado != 0)

/-- Outcome of PUT /api/control/actualizar/:id_inv, one constructor per
distinct HTTP response the handler can send. -/
inductive ActualizarResult where
  | badRequest
  | ok
  | internalError
  deriving Repr, DecidableEq

/-- HTTP status code sent for each actuator-update outcome. -/
def ActualizarResult.status : ActualizarResult → Nat
  | .badRequest => 400
  | .ok => 200
  | .internalError => 500

/-- Column chosen by the actuator-name dictionary in the handler: luces,
riego and ventilacion map to their _estado column, anything else to none. -/
def actuadorCampo (actuador : String) : Option String :=
  if actuador == "luces" then some "luces_estado"
  else if actuador == "riego" then some "riego_estado"
  else if actuador == "ventilacion" then some "ventilacion_estado"
  else none

/-- One estado_control row after the UPDATE statement touches it: the
column named by campo receives the new value and ultima_actualizacion
receives NOW(); every other column keeps its value. -/
def aplicarCampo (campo : String) (v : Int) (t : Nat) (e : EstadoControl) :
    EstadoControl :=
  if campo = "luces_estado" then
    { e with luces_estado := v, ultima_actualizacion := some t }
  else if campo = "riego_estado" then
    { e with riego_estado := v, ultima_actualizacion := some t }
  else
    { e with ventilacion_estado := v, ultima_actualizacion := some t }

/-- PUT /api/control/actualizar/:id_inv (server.js lines 334-366).
Validates the actuator name by truthiness and the value against undefined,
maps the name through the column dictionary (invalid names are 400), then
runs one UPDATE on every estado_control row of the given device.  The
handler never checks how many rows matched, so an id with no row still
answers 200.  The fallo flag models the UPDATE raising. -/
def actualizarControl (db : DB) (t : Nat) (id_inv : Nat) (actuador : String)
    (estado : Option Int) (fallo : Bool) : ActualizarResult × DB :=
  if actuador = "" ∨ estado = none then (.badRequest, db)
  else
    match actuadorCampo actuador, estado with
    | some campo, some v =>
      if fallo then (.internalError, db)
      else
        (.ok,
          { db with estado_control := db.estado_control.map (fun e =>
              if e.id_invernadero == id_inv then aplicarCampo campo v t e
              else e) })
    | _, _ => (.badRequest, db)

/-- Claim C7: listing a user's devices always answers status 200, the rows
are sorted by device id ascending, the list is empty (still with status
200) exactly when the ownership table has no row for the user, and every
returned row is a device of the invernadero table owned by the user. -/
theorem listar_ordenado (db : DB) (userId : Nat) :
    (listarInvernaderosUsuario db userId).1 = 200 ∧
    List.Sorted ordenIdAsc (listarInvernaderosUsuario db userId).2 ∧
    ((∀ u ∈ db.usuario_invernadero, u.id_usuario ≠ userId) →
      (listarInvernaderosUsuario db userId).2 = []) ∧
    (∀ i ∈ (listarInvernaderosUsuario db userId).2,
      i ∈ db.invernadero ∧ ∃ u ∈ db.usuario_invernadero,
        u.id_usuario = userId ∧ u.id_invernadero = i.id_invernadero) := by
  refine ⟨rfl, List.sorted_insertionSort ordenIdAsc _, ?_, ?_⟩
  · intro hno
    have hfil : db.usuario_invernadero.filter (fun u => u.id_usuario == userId) = [] := by
      rw [List.filter_eq_nil_iff]
      intro u hu
      simpa using hno u hu
    simp [listarInvernaderosUsuario, hfil]
  · intro i hi
    have hi' := (List.perm_insertionSort ordenIdAsc _).subset hi
    rw [List.mem_flatMap] at hi'
    obtain ⟨u, hu, hiu⟩ := hi'
    rw [List.mem_filter] at hu hiu
    exact ⟨hiu.1, u, hu.1, by simpa using hu.2, (by simpa using hiu.2 : _ = _).symm⟩

/-- Witness for C7 at a concrete input: on dbUno, user 7 sees exactly the
one device they own and user 8 sees the empty list, both with status 200. -/
theorem listar_ordenado_testigo :
    (listarInvernaderosUsuario dbUno 8).1 = 200 ∧
    (listarInvernaderosUsuario dbUno 8).2 = [] ∧
    (listarInvernaderosUsuario dbUno 7).2 = [⟨1, "Greenhouse A", "ABC", 0⟩] := by
  refine ⟨(listar_ordenado dbUno 8).1, (listar_ordenado dbUno 8).2.2.1 ?_, by decide⟩
  decide

/-- Claim C5: fetching control state by token distinguishes the three
outcomes — a token no device carries is answered 401 unauthorized; a token
some device carries whose devices have no estado_control row is answered
404 not-found; and when every device carrying the token has an
estado_control row, the answer is 200 with the three boolean flags of the
control-state row of a device carrying the token. -/
theorem estado_tres_salidas (db : DB) (token : String) :
    ((∀ i ∈ db.invernadero, i.token_dispositivo ≠ token) →
      consultarEstado db token = .unauthorized) ∧
    ((∃ i ∈ db.invernadero, i.token_dispositivo = token) →
      ((∀ i ∈ db.invernadero, i.token_dispositivo = token →
          ∀ e ∈ db.estado_control, e.id_invernadero ≠ i.id_invernadero) →
        consultarEstado db token = .notFound) ∧
      ((∀ i ∈ db.invernadero, i.token_dispositivo = token →
          ∃ e ∈ db.estado_control, e.id_invernadero = i.id_invernadero) →
        ∃ i ∈ db.invernadero, ∃ e ∈ db.estado_control,
          i.token_dispositivo = token ∧ e.id_invernadero = i.id_invernadero ∧
          consultarEstado db token =
            .ok (e.luces_estado != 0) (e.riego_estado != 0)
              (e.ventilacion_estado != 0))) := by
  constructor
  · intro hno
    have hfind : db.invernadero.find? (fun i => i.token_dispositivo == token) = none := by
      rw [List.find?_eq_none]
      intro i hi
      simpa using hno i hi
    simp [consultarEstado, hfind]
  · intro hsi
    have hsome : (db.invernadero.find? (fun i => i.token_dispositivo == token)).isSome := by
      rw [List.find?_isSome]
      obtain ⟨i, hi, hti⟩ := hsi
      exact ⟨i, hi, by simpa using hti⟩
    obtain ⟨inv, hfind⟩ := Option.isSome_iff_exists.mp hsome
    have hmem : inv ∈ db.invernadero := List.mem_of_find?_eq_some hfind
    have htok : inv.token_dispositivo = token := by
      simpa using List.find?_some hfind
    constructor
    · intro hnoe
      have hfind2 : db.estado_control.find?
          (fun e => e.id_invernadero == inv.id_invernadero) = none := by
        rw [List.find?_eq_none]
        intro e he
        simpa using hnoe inv hmem htok e he
      simp [consultarEstado, hfind, hfind2]
    · intro hse
      have hsome2 : (db.estado_control.find?
          (fun e => e.id_invernadero == inv.id_invernadero)).isSome := by
        rw [List.find?_isSome]
        obtain ⟨e, he, hei⟩ := hse inv hmem htok
        exact ⟨e, he, by simpa using hei⟩
      obtain ⟨e, hfind2⟩ := Option.isSome_iff_exists.mp hsome2
      refine ⟨inv, hmem, e, List.mem_of_find?_eq_some hfind2, htok,
        by simpa using List.find?_some hfind2, ?_⟩
      simp [consultarEstado, hfind, hfind2]

/-- Witness for C5 at concrete inputs: on dbUno, the unknown token ZZZ is
401, and the known token ABC resolves to the all-off flags; on a variant of
dbUno whose estado_control table is empty, token ABC is 404. -/
theorem estado_tres_salidas_testigo :
    consultarEstado dbUno "ZZZ" = .unauthorized ∧
    consultarEstado ⟨dbUno.invernadero, [], [], [], 2⟩ "ABC" = .notFound ∧
    consultarEstado dbUno "ABC" = .ok false false false := by
  refine ⟨(estado_tres_salidas dbUno "ZZZ").1 (by decide), ?_, ?_⟩
  · exact ((estado_tres_salidas ⟨dbUno.invernadero, [], [], [], 2⟩ "ABC").2
      (by decide)).1 (by decide)
  · obtain ⟨i, hi, e, he, htok, hid, hok⟩ :=
      ((estado_tres_salidas dbUno "ABC").2 (by decide)).2 (by decide)
    have he' : e = (⟨1, 0, 0, 0, none⟩ : EstadoControl) := by
      have := he
      simpa [dbUno] using this
    rw [hok, he']
    decide

/-- Claim C6: the history endpoint reports the device's readings most
recent first — the full ordered history is sorted by capture time
descending, any 200 answer is exactly the first limit-many rows of that
full history (LIMIT of the ORDER BY result, i.e. a prefix by recency), the
limit defaults to 50 when the query parameter is absent, and under the
spec's precondition that a supplied limit is a positive integer the 404
answer happens exactly when the device has no readings at all. -/
theorem historico_prefijo (db : DB) (id_inv : Nat) (limit : Option Nat)
    (hpos : ∀ n, limit = some n → 0 < n) :
    List.Sorted recienteDesc (historicoCompleto db id_inv) ∧
    (limit = none → limit.getD 50 = 50) ∧
    (∀ rs, historico db id_inv limit = .ok rs →
      rs = (historicoCompleto db id_inv).take (limit.getD 50)) ∧
    (historico db id_inv limit = .notFound ↔
      db.registro_sensores.filter (fun r => r.id_invernadero == id_inv) = []) := by
  have hl : 0 < limit.getD 50 := by
    cases limit with
    | none => simp
    | some n => simpa using hpos n rfl
  have hperm : List.Perm (historicoCompleto db id_inv)
      (db.registro_sensores.filter (fun r => r.id_invernadero == id_inv)) :=
    List.perm_insertionSort recienteDesc _
  have hnula : historicoCompleto db id_inv = [] ↔
      db.registro_sensores.filter (fun r => r.id_invernadero == id_inv) = [] := by
    rw [← List.length_eq_zero, ← List.length_eq_zero, hperm.length_eq]
  refine ⟨List.sorted_insertionSort recienteDesc _, fun h => by simp [h], ?_, ?_⟩
  · intro rs hrs
    simp only [historico] at hrs
    split at hrs
    · exact absurd hrs (by simp)
    · simpa using hrs.symm
  · simp only [historico]
    split
    · rename_i hvacio
      simp only [List.isEmpty_iff, List.take_eq_nil_iff] at hvacio
      rcases hvacio with h0 | hnil
      · omega
      · simp [hnula.mp hnil]
    · rename_i hvacio
      simp only [List.isEmpty_iff, List.take_eq_nil_iff, not_or] at hvacio
      constructor
      · intro h
        exact absurd h (by simp)
      · intro hfil
        exact absurd (hnula.mpr hfil) hvacio.2

/-- A database with one device and two readings for it, captured at server
times 2 and 7. -/
def dbLecturas : DB :=
  ⟨[⟨1, "Greenhouse A", "ABC", 7⟩], [⟨1, 0, 0, 0, none⟩], [⟨7, 1, "admin"⟩],
   [⟨1, 2, 24, 60, 40⟩, ⟨1, 7, 25, 61, 41⟩], 2⟩

/-- Witness for C6 at a concrete input: with limit 1 on a device having two
readings, the answer is exactly the most recent reading — the length-1
prefix of the full recency-ordered history. -/
theorem historico_prefijo_testigo :
    (∀ rs, historico dbLecturas 1 (some 1) = .ok rs →
      rs = (historicoCompleto dbLecturas 1).take 1) ∧
    historico dbLecturas 1 (some 1) = .ok [⟨1, 7, 25, 61, 41⟩] := by
  have h := historico_prefijo dbLecturas 1 (some 1) (fun n hn => by
    injection hn with hn
    omega)
  exact ⟨h.2.2.1, by decide⟩

/-- Claim C4: a valid actuator update writes only the named flag and the
last-update timestamp.  The other three tables are untouched, the
estado_control table keeps its length and row order, rows of other devices
are unchanged, and on the device's rows the two flags not named keep their
values while the named flag receives the new value and
ultima_actualizacion receives NOW(). -/
theorem actualizar_aislamiento (db : DB) (t id_inv : Nat) (actuador : String)
    (v : Int) (r : ActualizarResult) (db' : DB)
    (hval : (actuadorCampo actuador).isSome = true)
    (h : actualizarControl db t id_inv actuador (some v) false = (r, db')) :
    r = .ok ∧
    db'.invernadero = db.invernadero ∧
    db'.usuario_invernadero = db.usuario_invernadero ∧
    db'.registro_sensores = db.registro_sensores ∧
    db'.estado_control.length = db.estado_control.length ∧
    (∀ k, (hk : k < db.estado_control.length) →
      (hk' : k < db'.estado_control.length) →
      (((db.estado_control.get ⟨k, hk⟩).id_invernadero ≠ id_inv →
          db'.estado_control.get ⟨k, hk'⟩ = db.estado_control.get ⟨k, hk⟩) ∧
       ((db.estado_control.get ⟨k, hk⟩).id_invernadero = id_inv →
          (db'.estado_control.get ⟨k, hk'⟩).id_invernadero = id_inv ∧
          (db'.estado_control.get ⟨k, hk'⟩).ultima_actualizacion = some t ∧
          (actuador ≠ "luces" → (db'.estado_control.get ⟨k, hk'⟩).luces_estado =
            (db.estado_control.get ⟨k, hk⟩).luces_estado) ∧
          (actuador ≠ "riego" → (db'.estado_control.get ⟨k, hk'⟩).riego_estado =
            (db.estado_control.get ⟨k, hk⟩).riego_estado) ∧
          (actuador ≠ "ventilacion" →
            (db'.estado_control.get ⟨k, hk'⟩).ventilacion_estado =
            (db.estado_control.get ⟨k, hk⟩).ventilacion_estado) ∧
          (actuador = "luces" →
            (db'.estado_control.get ⟨k, hk'⟩).luces_estado = v) ∧
          (actuador = "riego" →
            (db'.estado_control.get ⟨k, hk'⟩).riego_estado = v) ∧
          (actuador = "ventilacion" →
            (db'.estado_control.get ⟨k, hk'⟩).ventilacion_estado = v)))) := by
  have hcase : actuador = "luces" ∨ actuador = "riego" ∨ actuador = "ventilacion" := by
    simp only [actuadorCampo] at hval
    split_ifs at hval with h1 h2 h3
    · exact Or.inl (by simpa using h1)
    · exact Or.inr (Or.inl (by simpa using h2))
    · exact Or.inr (Or.inr (by simpa using h3))
    · simp at hval
  rcases hcase with hc | hc | hc <;> subst hc <;>
  · simp only [actualizarControl, actuadorCampo] at h
    simp at h
    obtain ⟨hr, hdb⟩ := h
    subst hdb
    refine ⟨hr.symm, rfl, rfl, rfl, by simp, ?_⟩
    intro k hk hk'
    simp only [List.get_eq_getElem, List.getElem_map]
    by_cases he : (db.estado_control[k]).id_invernadero = id_inv <;>
      simp [he, aplicarCampo]

/-- Witness for C4 at a concrete input: on dbUno, setting riego to 1 at
time 9 answers ok and yields exactly the row with riego set, the timestamp
refreshed, and luces and ventilacion untouched. -/
theorem actualizar_aislamiento_testigo :
    (actualizarControl dbUno 9 1 "riego" (some 1) false).1 = .ok ∧
    (actualizarControl dbUno 9 1 "riego" (some 1) false).2.estado_control =
      [⟨1, 0, 1, 0, some 9⟩] := by
  have h := actualizar_aislamiento dbUno 9 1 "riego" 1
    (actualizarControl dbUno 9 1 "riego" (some 1) false).1
    (actualizarControl dbUno 9 1 "riego" (some 1) false).2 (by decide) rfl
  exact ⟨h.1, by decide⟩

/-- Claim C9: with a valid actuator name and a defined value, an update
naming a device id that has no estado_control row (for instance an id that
was never provisioned) still answers 200 ok and leaves the database
unchanged, because the handler never inspects how many rows the UPDATE
matched; and on no input whatsoever does this endpoint answer 404 or 401. -/
theorem actualizar_sin_fila (db : DB) (t id_inv : Nat) (actuador : String)
    (v : Int) :
    ((actuadorCampo actuador).isSome = true →
      (∀ e ∈ db.estado_control, e.id_invernadero ≠ id_inv) →
      actualizarControl db t id_inv actuador (some v) false = (.ok, db)) ∧
    (∀ estado : Option Int, ∀ fallo : Bool,
      (actualizarControl db t id_inv actuador estado fallo).1.status ≠ 404 ∧
      (actualizarControl db t id_inv actuador estado fallo).1.status ≠ 401) := by
  constructor
  · intro hval hno
    obtain ⟨campo, hcampo⟩ := Option.isSome_iff_exists.mp hval
    have hne : actuador ≠ "" := by
      intro hcon
      rw [hcon] at hcampo
      simp [actuadorCampo] at hcampo
    have hid : db.estado_control.map (fun e =>
        if e.id_invernadero = id_inv then aplicarCampo campo v t e else e) =
        db.estado_control := by
      rw [List.map_congr_left (g := fun e => e), List.map_id']
      intro e he
      rw [if_neg (hno e he)]
    simp [actualizarControl, hne, hcampo, hid]
  · intro estado fallo
    rcases estado with _ | v0
    · simp [actualizarControl, ActualizarResult.status]
    · by_cases ha : actuador = ""
      · simp [actualizarControl, ha, ActualizarResult.status]
      · rcases hc : actuadorCampo actuador with _ | campo
        · simp [actualizarControl, ha, hc, ActualizarResult.status]
        · cases fallo <;>
            simp [actualizarControl, ha, hc, ActualizarResult.status]

/-- Witness for C9 at concrete inputs: on the empty database (which has no
estado_control row for id 42) a riego update answers ok and changes
nothing, and a request with an invalid actuator name is not answered 404. -/
theorem actualizar_sin_fila_testigo :
    actualizarControl dbVacia 9 42 "riego" (some 1) false = (.ok, dbVacia) ∧
    (actualizarControl dbVacia 9 42 "zumbador" (some 1) false).1.status ≠ 404 :=
  ⟨(actualizar_sin_fila dbVacia 9 42 "riego" 1).1 (by decide) (by decide),
   ((actualizar_sin_fila dbVacia 9 42 "zumbador" 1).2 (some 1) false).1⟩

/-- Failure schedule in which the last-contact UPDATE raises after the
reading INSERT has already been auto-committed. -/
def falloConexion : IngresarFallo := ⟨false, false, true⟩

/-- Counterexample to claim C8 as stated: at a concrete input the reading
INSERT commits and the last-contact UPDATE then fails, so the attempt is
answered 500 with the reading appended but ultima_conexion unchanged — the
operation was neither fully applied nor fully not applied, because the
handler runs the two statements as separate auto-committed queries with no
transaction around them. -/
theorem ingresar_parcial :
    (ingresarDatos dbUno 5 "ABC" (some 24) (some 60) (some 40) falloConexion).1 =
      .internalError ∧
    (ingresarDatos dbUno 5 "ABC" (some 24) (some 60) (some 40) falloConexion).2.registro_sensores =
      dbUno.registro_sensores ++ [⟨1, 5, 24, 60, 40⟩] ∧
    (ingresarDatos dbUno 5 "ABC" (some 24) (some 60) (some 40) falloConexion).2.invernadero =
      dbUno.invernadero := by
  decide

/-- Claim C8 as amended: when telemetry ingest returns created, a reading
with server-assigned capture time was appended for the device carrying the
token and that device's ultima_conexion was refreshed to the same server
time, the other tables untouched; atomicity, however, is not guaranteed —
the two writes are separate auto-committed statements, and a failure
between them leaves the reading appended without the refresh. -/
theorem ingresar_exito (db : DB) (t : Nat) (token : String)
    (temp hum suelo : Int) (f : IngresarFallo) (db' : DB)
    (h : ingresarDatos db t token (some temp) (some hum) (some suelo) f =
      (.created, db')) :
    ∃ inv ∈ db.invernadero, inv.token_dispositivo = token ∧
      db'.registro_sensores =
        db.registro_sensores ++ [⟨inv.id_invernadero, t, temp, hum, suelo⟩] ∧
      db'.invernadero = db.invernadero.map (fun i =>
        if i.id_invernadero == inv.id_invernadero then
          { i with ultima_conexion := t }
        else i) ∧
      (∀ j ∈ db'.invernadero, j.id_invernadero = inv.id_invernadero →
        j.ultima_conexion = t) ∧
      db'.estado_control = db.estado_control ∧
      db'.usuario_invernadero = db.usuario_invernadero := by
  rcases hfind : db.invernadero.find? (fun i => i.token_dispositivo == token)
    with _ | inv
  · simp only [ingresarDatos, hfind] at h
    split_ifs at h <;> exact absurd h (by simp)
  · simp only [ingresarDatos, hfind] at h
    split_ifs at h with h1 h2 h3 h4
    · exact absurd h (by simp)
    · exact absurd h (by simp)
    · exact absurd h (by simp)
    · exact absurd h (by simp)
    · simp only [Prod.mk.injEq, true_and] at h
      subst h
      refine ⟨inv, List.mem_of_find?_eq_some hfind,
        by simpa using List.find?_some hfind, rfl, rfl, ?_, rfl, rfl⟩
      intro j hj hid
      simp only [List.mem_map] at hj
      obtain ⟨i0, hi0, rfl⟩ := hj
      by_cases hi : i0.id_invernadero = inv.id_invernadero
      · simp [hi]
      · rw [if_neg (by simpa using hi)] at hid ⊢
        exact absurd hid hi

/-- Witness for the amended C8 at a concrete input: a fault-free ingest
with token ABC on dbUno appends the reading at server time 5 and refreshes
the device's last contact to 5. -/
theorem ingresar_exito_testigo :
    ∃ inv ∈ dbUno.invernadero, inv.token_dispositivo = "ABC" ∧
      (ingresarDatos dbUno 5 "ABC" (some 24) (some 60) (some 40) ingresarSinFallo).2.registro_sensores =
        dbUno.registro_sensores ++ [⟨inv.id_invernadero, 5, 24, 60, 40⟩] ∧
      (ingresarDatos dbUno 5 "ABC" (some 24) (some 60) (some 40) ingresarSinFallo).2.invernadero =
        dbUno.invernadero.map (fun i =>
          if i.id_invernadero == inv.id_invernadero then
            { i with ultima_conexion := 5 }
          else i) ∧
      (∀ j ∈ (ingresarDatos dbUno 5 "ABC" (some 24) (some 60) (some 40) ingresarSinFallo).2.invernadero,
        j.id_invernadero = inv.id_invernadero → j.ultima_conexion = 5) ∧
      (ingresarDatos dbUno 5 "ABC" (some 24) (some 60) (some 40) ingresarSinFallo).2.estado_control =
        dbUno.estado_control ∧
      (ingresarDatos dbUno 5 "ABC" (some 24) (some 60) (some 40) ingresarSinFallo).2.usuario_invernadero =
        dbUno.usuario_invernadero :=
  ingresar_exito dbUno 5 "ABC" 24 60 40 ingresarSinFallo
    (ingresarDatos dbUno 5 "ABC" (some 24) (some 60) (some 40) ingresarSinFallo).2
    (by decide)

end EcoDuino
